import Mathlib

/-!
Verification of the SOBIE frontend development server (`src/frontend/serve.py`).

The server is embedded shallowly:

* the filesystem under the document root is an abstract map
  `fs : String → Option String` from root-relative paths (no leading slash,
  as produced by `self.path[1:]` in the source) to file contents; a path
  exists exactly when `fs` returns `some`;
* `rewritePath` embeds the `if`/`elif` chain of
  `CORSHTTPRequestHandler.do_GET`;
* `superGet` embeds the inherited `SimpleHTTPRequestHandler.do_GET`
  (query and fragment stripped as in `translate_path`, then 200 with the
  file bytes or 404 with the standard error body);
* `decorate` embeds the overridden `end_headers`, which appends the three
  CORS headers to every response;
* `main` embeds the `main` function as a function from the two inputs the
  environment decides (whether the hard-coded document root exists, and
  what the `try` block raises) to an observable trace: lines printed,
  whether the socket was bound, and the explicit exit code if any.
-/

namespace Serve

/-- A single HTTP response: status code, header list in emission order,
and body bytes (as a string). -/
structure Response where
  status : Nat
  headers : List (String × String)
  body : String
deriving DecidableEq, Repr

/-- `startswith` of Python, on the underlying character lists. -/
def strStarts (pre p : String) : Bool :=
  pre.toList.isPrefixOf p.toList

/-- `p[1:]` of Python: drop the first character. -/
def strDrop1 (p : String) : String :=
  String.mk (p.toList.drop 1)

/-- `path.split('?',1)[0].split('#',1)[0]` of
`SimpleHTTPRequestHandler.translate_path`: the part of the request target
before the first `?` or `#`. -/
def stripQueryFrag (p : String) : String :=
  String.mk (p.toList.takeWhile (fun c => c ≠ '?' ∧ c ≠ '#'))

/-- The root-relative filesystem path the inherited handler resolves a
request target to (query and fragment stripped, leading slash removed). -/
def relOf (p : String) : String :=
  strDrop1 (stripQueryFrag p)

/-- The three CORS headers added by the overridden `end_headers`, with
their literal values. -/
def corsHeaders : List (String × String) :=
  [("Access-Control-Allow-Origin", "*"),
   ("Access-Control-Allow-Methods", "GET, POST, PUT, DELETE, OPTIONS"),
   ("Access-Control-Allow-Headers", "Content-Type, Authorization")]

/-- The overridden `end_headers`: every response flushed through it gets
the three CORS headers appended after the headers already emitted. -/
def decorate (r : Response) : Response :=
  { r with headers := r.headers ++ corsHeaders }

/-- Content-type inference by extension, abstracting
`SimpleHTTPRequestHandler.guess_type` to the cases this server serves. -/
def contentTypeOf (path : String) : String :=
  if ".html".toList.isSuffixOf path.toList then "text/html" else "application/octet-stream"

/-- The path-rewrite chain of `CORSHTTPRequestHandler.do_GET`, before the
delegation to the inherited handler.  `os.path.exists(self.path[1:])` is
embedded as `fs (strDrop1 p) ≠ none`; note `self.path` still carries any
query string at this point. -/
def rewritePath (fs : String → Option String) (p : String) : String :=
  if p = "/" ∨ p = "/index.html" then "/index.html"
  else if strStarts "/public/" p = true ∧ fs (strDrop1 p) = none then "/index.html"
  else if strStarts "/user/" p = true ∧ fs (strDrop1 p) = none then "/index.html"
  else if strStarts "/admin/" p = true ∧ fs (strDrop1 p) = none then "/index.html"
  else p

/-- The inherited `SimpleHTTPRequestHandler.do_GET`: resolve the target to
a root-relative path and serve the file (status 200) or the standard
error response (status 404, body from `send_error`). -/
def superGet (fs : String → Option String) (p : String) : Response :=
  match fs (relOf p) with
  | some c => { status := 200, headers := [("Content-Type", contentTypeOf (relOf p))], body := c }
  | none => { status := 404, headers := [("Content-Type", "text/html;charset=utf-8")],
              body := "File not found" }

/-- `CORSHTTPRequestHandler.do_GET`: rewrite the path, delegate to the
inherited handler, CORS headers appended by the overridden `end_headers`. -/
def do_GET (fs : String → Option String) (p : String) : Response :=
  decorate (superGet fs (rewritePath fs p))

/-- `CORSHTTPRequestHandler.do_OPTIONS`: `send_response(200)` then
`end_headers()` — status 200, no body, no filesystem access (the method
mentions neither `self.path` nor any `os` call). -/
def do_OPTIONS : Response :=
  decorate { status := 200, headers := [], body := "" }

/-- Request methods reaching the handler. -/
inductive HttpMethod where
  | get
  | options
  | otherMethod (name : String)
deriving DecidableEq, Repr

/-- Dispatch of `BaseHTTPRequestHandler.handle_one_request`: `do_GET` for
GET, `do_OPTIONS` for OPTIONS, and for any other method the default 501
error response, which also flushes through the overridden `end_headers`. -/
def handle (fs : String → Option String) (m : HttpMethod) (p : String) : Response :=
  match m with
  | .get => do_GET fs p
  | .options => do_OPTIONS
  | .otherMethod _ =>
      decorate { status := 501, headers := [("Content-Type", "text/html;charset=utf-8")],
                 body := "Unsupported method" }

/-- The hard-coded document root of `main`. -/
def frontendDir : String :=
  "/Users/bcumbie/Desktop/sobie-dev/sobieNode/frontend"

/-- The message printed when the document root is missing. -/
def dirNotFoundMsg : String :=
  "❌ Frontend directory not found: " ++ frontendDir

/-- The message printed after `os.chdir`. -/
def servingFromMsg : String :=
  "📁 Serving from: " ++ frontendDir

/-- The startup banner printed once the socket is bound. -/
def bannerMsgs : List String :=
  ["🚀 SOBIE Frontend Server running at http://localhost:8080",
   "🔗 Backend API: http://localhost:3000",
   "🧪 Test connection: http://localhost:8080/test-connection.html",
   "\n🎯 Frontend Features Available:",
   "   • Main App: http://localhost:8080/",
   "   • Research Papers: http://localhost:8080/public/research.html",
   "   • Login: http://localhost:8080/public/login.html",
   "   • User Dashboard: http://localhost:8080/user/dashboard.html",
   "   • Connection Test: http://localhost:8080/test-connection.html",
   "\n⚠️  Make sure backend is running on http://localhost:3000",
   "   Run: npm start (in the sobieNode directory)",
   "\n🛑 Press Ctrl+C to stop the server"]

/-- First line of the `errno == 48` diagnostic. -/
def portInUseMsg : String :=
  "❌ Port 8080 is already in use"

/-- Second line of the `errno == 48` diagnostic. -/
def tryDifferentPortMsg : String :=
  "   Try a different port or stop the existing server"

/-- The generic `OSError` diagnostic, embedding the Python repr of the
exception as its errno. -/
def serverErrorMsg (errno : Nat) : String :=
  "❌ Server error: [Errno " ++ toString errno ++ "]"

/-- The message printed on `KeyboardInterrupt`. -/
def stoppedMsg : String :=
  "\n👋 Frontend server stopped"

/-- What the `try` block of `main` raises: a `KeyboardInterrupt` out of
`serve_forever` (the socket was bound), or an `OSError` with the given
errno out of the `TCPServer` constructor (the socket was never bound). -/
inductive TryOutcome where
  | interrupted
  | bindOSError (errno : Nat)
deriving DecidableEq, Repr

/-- Observable trace of one run of `main`: lines printed, whether the
listening socket was bound, and the explicit exit code (`none` means
`main` returned normally, so the process exits with status 0). -/
structure MainTrace where
  printed : List String
  bound : Bool
  exitCode : Option Nat
deriving DecidableEq, Repr

/-- The exit status the process actually reports: the explicit
`sys.exit` code if one was given, else 0 for falling off the end. -/
def effectiveExit (t : MainTrace) : Nat :=
  t.exitCode.getD 0

/-- The `main` function: existence check on the hard-coded root, then the
`try` block around `TCPServer`/`serve_forever` with its two `except`
clauses. -/
def main (rootExists : Bool) (oc : TryOutcome) : MainTrace :=
  if rootExists then
    match oc with
    | .interrupted =>
        { printed := [servingFromMsg] ++ bannerMsgs ++ [stoppedMsg],
          bound := true, exitCode := none }
    | .bindOSError e =>
        { printed := [servingFromMsg] ++
            (if e = 48 then [portInUseMsg, tryDifferentPortMsg] else [serverErrorMsg e]),
          bound := false, exitCode := none }
  else
    { printed := [dirNotFoundMsg], bound := false, exitCode := some 1 }

/-- A demonstration filesystem for concrete evaluations: the root document
and one public page exist, nothing else. -/
def demoFs : String → Option String :=
  fun q =>
    if q = "index.html" then some "<html>INDEX</html>"
    else if q = "public/research.html" then some "<html>RESEARCH</html>"
    else none

lemma strStarts_ne_of_not (a p q : String) (h : strStarts a p = true)
    (hq : strStarts a q = false) : p ≠ q := by
  intro he
  rw [he] at h
  simp [h] at hq

lemma strStarts_excl (a b p : String)
    (hab : a.toList.isPrefixOf b.toList = false)
    (hba : b.toList.isPrefixOf a.toList = false)
    (h : strStarts a p = true) : strStarts b p = false := by
  by_contra hb
  rw [Bool.not_eq_false] at hb
  rw [strStarts, List.isPrefixOf_iff_prefix] at h hb
  rcases List.prefix_or_prefix_of_prefix h hb with hc | hc
  · rw [← List.isPrefixOf_iff_prefix] at hc
    rw [hab] at hc
    exact Bool.noConfusion hc
  · rw [← List.isPrefixOf_iff_prefix] at hc
    rw [hba] at hc
    exact Bool.noConfusion hc

lemma not_root_of_routed (p : String)
    (hpre : strStarts "/public/" p = true ∨ strStarts "/user/" p = true ∨
      strStarts "/admin/" p = true) :
    ¬ (p = "/" ∨ p = "/index.html") := by
  rcases hpre with h | h | h <;>
    exact fun hc => hc.elim
      (strStarts_ne_of_not _ _ _ h (by decide))
      (strStarts_ne_of_not _ _ _ h (by decide))

lemma rewritePath_eq_index_of_missing (fs : String → Option String) (p : String)
    (hpre : strStarts "/public/" p = true ∨ strStarts "/user/" p = true ∨
      strStarts "/admin/" p = true)
    (hmiss : fs (strDrop1 p) = none) :
    rewritePath fs p = "/index.html" := by
  unfold rewritePath
  rw [if_neg (not_root_of_routed p hpre)]
  rcases hpre with h | h | h
  · rw [if_pos ⟨h, hmiss⟩]
  · have hp : strStarts "/public/" p = false := strStarts_excl _ _ _ (by decide) (by decide) h
    rw [if_neg (fun hc => by simp [hp] at hc), if_pos ⟨h, hmiss⟩]
  · have hp : strStarts "/public/" p = false := strStarts_excl _ _ _ (by decide) (by decide) h
    have hu : strStarts "/user/" p = false := strStarts_excl _ _ _ (by decide) (by decide) h
    rw [if_neg (fun hc => by simp [hp] at hc), if_neg (fun hc => by simp [hu] at hc),
      if_pos ⟨h, hmiss⟩]

lemma rewritePath_eq_self_of_hit (fs : String → Option String) (p c : String)
    (hpre : strStarts "/public/" p = true ∨ strStarts "/user/" p = true ∨
      strStarts "/admin/" p = true)
    (hhit : fs (strDrop1 p) = some c) :
    rewritePath fs p = p := by
  have hne : ∀ q : Prop, ¬ (q ∧ fs (strDrop1 p) = none) := by
    intro q hc
    rw [hhit] at hc
    exact Option.noConfusion hc.2
  unfold rewritePath
  rw [if_neg (not_root_of_routed p hpre), if_neg (hne _), if_neg (hne _), if_neg (hne _)]

lemma rewritePath_eq_self_outside (fs : String → Option String) (p : String)
    (h1 : p ≠ "/") (h2 : p ≠ "/index.html")
    (hp : strStarts "/public/" p = false)
    (hu : strStarts "/user/" p = false)
    (ha : strStarts "/admin/" p = false) :
    rewritePath fs p = p := by
  unfold rewritePath
  rw [if_neg (fun hc => hc.elim h1 h2),
    if_neg (fun hc => by simp [hp] at hc),
    if_neg (fun hc => by simp [hu] at hc),
    if_neg (fun hc => by simp [ha] at hc)]

lemma rewritePath_index (fs : String → Option String) :
    rewritePath fs "/index.html" = "/index.html" := by
  unfold rewritePath
  rw [if_pos (Or.inr rfl)]

lemma rewritePath_cases (fs : String → Option String) (p : String) :
    rewritePath fs p = "/index.html" ∨ rewritePath fs p = p := by
  unfold rewritePath
  repeat' split
  all_goals simp

lemma superGet_hit (fs : String → Option String) (p c : String)
    (h : fs (relOf p) = some c) :
    superGet fs p = { status := 200,
                      headers := [("Content-Type", contentTypeOf (relOf p))],
                      body := c } := by
  unfold superGet
  rw [h]

lemma superGet_miss (fs : String → Option String) (p : String)
    (h : fs (relOf p) = none) :
    superGet fs p = { status := 404,
                      headers := [("Content-Type", "text/html;charset=utf-8")],
                      body := "File not found" } := by
  unfold superGet
  rw [h]

lemma relOf_index : relOf "/index.html" = "index.html" := by decide

lemma handle_eq_decorate (fs : String → Option String) (m : HttpMethod) (p : String) :
    ∃ r, handle fs m p = decorate r := by
  cases m
  · exact ⟨superGet fs (rewritePath fs p), rfl⟩
  · exact ⟨{ status := 200, headers := [], body := "" }, rfl⟩
  · exact ⟨_, rfl⟩

/-- Claim C1: every GET request whose path starts with /public/, /user/, or
/admin/ and for which no file exists at that path under the document root is
rewritten to serve /index.html (the root document, assumed present), with
status 200. -/
theorem c1_missing_routed_path_serves_root (fs : String → Option String) (p idx : String)
    (hpre : strStarts "/public/" p = true ∨ strStarts "/user/" p = true ∨
      strStarts "/admin/" p = true)
    (hmiss : fs (strDrop1 p) = none)
    (hidx : fs "index.html" = some idx) :
    rewritePath fs p = "/index.html" ∧
    (do_GET fs p).status = 200 ∧ (do_GET fs p).body = idx := by
  have hr := rewritePath_eq_index_of_missing fs p hpre hmiss
  have hs := superGet_hit fs "/index.html" idx (by rw [relOf_index]; exact hidx)
  refine ⟨hr, ?_, ?_⟩ <;> simp only [do_GET] <;> rw [hr, hs] <;> rfl

/-- Claim C1 witness: GET /user/dashboard on the demo filesystem, where no
such file exists, serves the root document. -/
theorem c1_missing_routed_path_serves_root_witness :
    rewritePath demoFs "/user/dashboard" = "/index.html" ∧
    (do_GET demoFs "/user/dashboard").status = 200 ∧
    (do_GET demoFs "/user/dashboard").body = "<html>INDEX</html>" :=
  c1_missing_routed_path_serves_root demoFs "/user/dashboard" "<html>INDEX</html>"
    (Or.inr (Or.inl (by decide))) (by decide) (by decide)

/-- Claim C2: every GET request whose path starts with /public/, /user/, or
/admin/ and for which a file does exist at that path under the document root
serves that file unmodified (status 200, body the file content), not the root
document. -/
theorem c2_existing_routed_path_served_unmodified (fs : String → Option String) (p c : String)
    (hpre : strStarts "/public/" p = true ∨ strStarts "/user/" p = true ∨
      strStarts "/admin/" p = true)
    (hclean : stripQueryFrag p = p)
    (hhit : fs (strDrop1 p) = some c) :
    rewritePath fs p = p ∧
    (do_GET fs p).status = 200 ∧ (do_GET fs p).body = c := by
  have hr := rewritePath_eq_self_of_hit fs p c hpre hhit
  have hrel : relOf p = strDrop1 p := by simp only [relOf, hclean]
  have hs := superGet_hit fs p c (by rw [hrel]; exact hhit)
  refine ⟨hr, ?_, ?_⟩ <;> simp only [do_GET] <;> rw [hr, hs] <;> rfl

/-- Claim C2 witness: GET /public/research.html on the demo filesystem, where
that file exists, serves the file itself. -/
theorem c2_existing_routed_path_served_unmodified_witness :
    rewritePath demoFs "/public/research.html" = "/public/research.html" ∧
    (do_GET demoFs "/public/research.html").status = 200 ∧
    (do_GET demoFs "/public/research.html").body = "<html>RESEARCH</html>" :=
  c2_existing_routed_path_served_unmodified demoFs "/public/research.html"
    "<html>RESEARCH</html>" (Or.inl (by decide)) (by decide) (by decide)

/-- Claim C3: a GET request for exactly / or exactly /index.html serves
/index.html (the root document, assumed present), status 200. -/
theorem c3_root_paths_serve_root (fs : String → Option String) (p idx : String)
    (hp : p = "/" ∨ p = "/index.html")
    (hidx : fs "index.html" = some idx) :
    rewritePath fs p = "/index.html" ∧
    (do_GET fs p).status = 200 ∧ (do_GET fs p).body = idx := by
  have hr : rewritePath fs p = "/index.html" := by
    unfold rewritePath
    rw [if_pos hp]
  have hs := superGet_hit fs "/index.html" idx (by rw [relOf_index]; exact hidx)
  refine ⟨hr, ?_, ?_⟩ <;> simp only [do_GET] <;> rw [hr, hs] <;> rfl

/-- Claim C3 witness: GET / on the demo filesystem serves the root document. -/
theorem c3_root_paths_serve_root_witness :
    rewritePath demoFs "/" = "/index.html" ∧
    (do_GET demoFs "/").status = 200 ∧
    (do_GET demoFs "/").body = "<html>INDEX</html>" :=
  c3_root_paths_serve_root demoFs "/" "<html>INDEX</html>" (Or.inl rfl) (by decide)

/-- Claim C4: a GET request whose path is outside the three rewrite roots and
is not / or /index.html is served unmodified, and if no file exists at that
path the response status is 404. -/
theorem c4_outside_paths_unmodified_404 (fs : String → Option String) (p : String)
    (h1 : p ≠ "/") (h2 : p ≠ "/index.html")
    (hp : strStarts "/public/" p = false)
    (hu : strStarts "/user/" p = false)
    (ha : strStarts "/admin/" p = false)
    (hmiss : fs (relOf p) = none) :
    rewritePath fs p = p ∧ (do_GET fs p).status = 404 := by
  have hr := rewritePath_eq_self_outside fs p h1 h2 hp hu ha
  have hs := superGet_miss fs p hmiss
  refine ⟨hr, ?_⟩
  simp only [do_GET]
  rw [hr, hs]
  rfl

/-- Claim C4 witness: GET /favicon.ico on the demo filesystem, where no such
file exists, is not rewritten and yields 404. -/
theorem c4_outside_paths_unmodified_404_witness :
    rewritePath demoFs "/favicon.ico" = "/favicon.ico" ∧
    (do_GET demoFs "/favicon.ico").status = 404 :=
  c4_outside_paths_unmodified_404 demoFs "/favicon.ico"
    (by decide) (by decide) (by decide) (by decide) (by decide) (by decide)

/-- Claim C5: every outgoing response, for every request path, method, and
resulting status, carries the three CORS headers with their literal values. -/
theorem c5_every_response_has_cors_headers (fs : String → Option String)
    (m : HttpMethod) (p : String) :
    ("Access-Control-Allow-Origin", "*") ∈ (handle fs m p).headers ∧
    ("Access-Control-Allow-Methods", "GET, POST, PUT, DELETE, OPTIONS") ∈
      (handle fs m p).headers ∧
    ("Access-Control-Allow-Headers", "Content-Type, Authorization") ∈
      (handle fs m p).headers := by
  obtain ⟨r, hr⟩ := handle_eq_decorate fs m p
  rw [hr]
  refine ⟨?_, ?_, ?_⟩ <;>
    exact List.mem_append_right _ (by simp [corsHeaders])

/-- Claim C6: an OPTIONS request to any path yields status 200, an empty body
and the CORS headers, and the response is the same whatever the filesystem
and path — the handler never consults either. -/
theorem c6_options_constant_response (fs fs' : String → Option String) (p p' : String) :
    (handle fs .options p).status = 200 ∧
    (handle fs .options p).body = "" ∧
    ("Access-Control-Allow-Origin", "*") ∈ (handle fs .options p).headers ∧
    ("Access-Control-Allow-Methods", "GET, POST, PUT, DELETE, OPTIONS") ∈
      (handle fs .options p).headers ∧
    ("Access-Control-Allow-Headers", "Content-Type, Authorization") ∈
      (handle fs .options p).headers ∧
    handle fs .options p = handle fs' .options p' := by
  refine ⟨rfl, rfl, ?_, ?_, ?_, rfl⟩ <;>
    simp [handle, do_OPTIONS, decorate, corsHeaders]

/-- Claim C7: when the hard-coded document root does not exist, main prints
the user-facing message and exits with code 1, and the socket is never
bound. -/
theorem c7_missing_root_exits_nonzero (oc : TryOutcome) :
    main false oc =
      { printed := [dirNotFoundMsg], bound := false, exitCode := some 1 } ∧
    effectiveExit (main false oc) = 1 :=
  ⟨rfl, rfl⟩

/-- Claim C8: when the TCPServer constructor raises an OSError, main prints a
diagnostic that distinguishes errno 48 (address in use) from every other
errno, never re-raises, and returns normally, so the process exit status is
effectively 0 despite the error. -/
theorem c8_bind_oserror_swallowed (e : Nat) (hne : e ≠ 48) :
    (main true (.bindOSError e)).exitCode = none ∧
    effectiveExit (main true (.bindOSError e)) = 0 ∧
    (main true (.bindOSError e)).bound = false ∧
    (main true (.bindOSError e)).printed = [servingFromMsg, serverErrorMsg e] ∧
    (main true (.bindOSError 48)).printed =
      [servingFromMsg, portInUseMsg, tryDifferentPortMsg] ∧
    (main true (.bindOSError e)).printed ≠ (main true (.bindOSError 48)).printed := by
  have h1 : (main true (.bindOSError e)).printed = [servingFromMsg, serverErrorMsg e] := by
    simp [main, hne]
  have h2 : (main true (.bindOSError 48)).printed =
      [servingFromMsg, portInUseMsg, tryDifferentPortMsg] := by
    simp [main]
  refine ⟨rfl, rfl, rfl, h1, h2, ?_⟩
  rw [h1, h2]
  intro hc
  have hl := congrArg List.length hc
  simp at hl

/-- Claim C8 witness: errno 98 (the Linux address-in-use code, which the code
does not check for) is reported by the generic branch and still swallowed. -/
theorem c8_bind_oserror_swallowed_witness :
    (main true (.bindOSError 98)).exitCode = none ∧
    effectiveExit (main true (.bindOSError 98)) = 0 ∧
    (main true (.bindOSError 98)).bound = false ∧
    (main true (.bindOSError 98)).printed = [servingFromMsg, serverErrorMsg 98] ∧
    (main true (.bindOSError 48)).printed =
      [servingFromMsg, portInUseMsg, tryDifferentPortMsg] ∧
    (main true (.bindOSError 98)).printed ≠ (main true (.bindOSError 48)).printed :=
  c8_bind_oserror_swallowed 98 (by decide)

/-- Claim C9: for a routed-prefix GET whose target carries a query string, the
existence check of the rewrite chain is made on the target including the
query string, so the request is rewritten to /index.html even though a file
exists at the query-free path the inherited handler would resolve. -/
theorem c9_query_string_forces_fallback (fs : String → Option String) (p c : String)
    (hpre : strStarts "/public/" p = true ∨ strStarts "/user/" p = true ∨
      strStarts "/admin/" p = true)
    (_hq : ('?' ∈ p.toList))
    (_hhit : fs (relOf p) = some c)
    (hmiss : fs (strDrop1 p) = none) :
    rewritePath fs p = "/index.html" ∧
    do_GET fs p = decorate (superGet fs "/index.html") := by
  have hr := rewritePath_eq_index_of_missing fs p hpre hmiss
  refine ⟨hr, ?_⟩
  simp only [do_GET]
  rw [hr]

/-- Claim C9 witness: GET /public/research.html?tab=1 on the demo filesystem,
where public/research.html exists but nothing is named with the query string,
falls back to the root document. -/
theorem c9_query_string_forces_fallback_witness :
    rewritePath demoFs "/public/research.html?tab=1" = "/index.html" ∧
    do_GET demoFs "/public/research.html?tab=1" =
      decorate (superGet demoFs "/index.html") :=
  c9_query_string_forces_fallback demoFs "/public/research.html?tab=1"
    "<html>RESEARCH</html>" (Or.inl (by decide)) (by decide) (by decide) (by decide)

/-- Claim C10: the rewrite is idempotent and its result is always either
/index.html or the original path unchanged, so at most one rewrite occurs per
request. -/
theorem c10_rewritePath_idempotent (fs : String → Option String) (p : String) :
    (rewritePath fs p = "/index.html" ∨ rewritePath fs p = p) ∧
    rewritePath fs (rewritePath fs p) = rewritePath fs p := by
  refine ⟨rewritePath_cases fs p, ?_⟩
  rcases rewritePath_cases fs p with h | h
  · rw [h]
    exact rewritePath_index fs
  · rw [h]
    exact h

end Serve
